import Mathlib

/-!
Verification development for the `imapdelete.py` mailbox triage tool.

The Python source is shallowly embedded: pure helper functions become Lean
functions over `String`/`List Char`; calls into the IMAP session library
(fetch, list, create, copy, store, append, expunge, logout) are modelled by
explicit oracle inputs or by a small session-state record, matching the
spec's treatment of the Session Facade as an external collaborator.
Python regular-expression evaluation (`re.search`) is modelled by an
abstract engine parameter; a malformed pattern is an engine that returns an
error, mirroring `re.error`.
-/

set_option autoImplicit false

namespace ImapDelete

/-! ## Character and list utilities shared by the embedded functions -/

/-- Lower-casing used to model `re.IGNORECASE` and Python `str.lower`. -/
def lcChar (c : Char) : Char := c.toLower

/-- Case-insensitive "the pattern is an initial segment of the text" test. -/
def ciStarts : List Char → List Char → Bool
  | [], _ => true
  | _ :: _, [] => false
  | p :: ps, t :: ts => (lcChar p == lcChar t) && ciStarts ps ts

/-- Leftmost case-insensitive occurrence of `pat` in the text; returns the
suffix of the text that follows the matched occurrence (the position where
`re.search` would leave `match.group(1)` to start).  Models the scanning
behaviour of `re.search(f'{name}: (.*)', data, re.IGNORECASE)`. -/
def ciFindSuffix (pat : List Char) : List Char → Option (List Char)
  | [] => if pat.isEmpty then some [] else none
  | t :: ts =>
    if ciStarts pat (t :: ts) then some (List.drop pat.length (t :: ts))
    else ciFindSuffix pat ts

/-- Model of `(.*)` without `re.DOTALL`: the capture runs to the end of the physical
line. -/
def takeLine (l : List Char) : List Char := l.takeWhile (fun c => c != '\n')

/-- Whitespace recognised by Python `str.strip()` (the ASCII part). -/
def isSpaceC (c : Char) : Bool :=
  c == ' ' || c == '\t' || c == '\n' || c == '\r'

/-- Python `str.strip()` on a character list. -/
def pyStrip (l : List Char) : List Char :=
  ((l.dropWhile isSpaceC).reverse.dropWhile isSpaceC).reverse

/-- Python `str.split(sep)` for a single-character separator. -/
def splitCL (sep : Char) : List Char → List (List Char)
  | [] => [[]]
  | c :: cs =>
    let r := splitCL sep cs
    if c == sep then [] :: r
    else
      match r with
      | h :: t => (c :: h) :: t
      | [] => [[c]]

/-- Python `str.lower()` (ASCII best effort, enough for header names). -/
def lowerStr (s : String) : String := String.mk (s.data.map lcChar)

/-! ## Header Model: `get_header_value` (imapdelete.py lines 451-464)

`decode_mime_words` (an `email.header` library call) and the `Date`
re-formatting (`email.utils.parsedate_to_datetime` + `strftime`) are library
collaborators, passed in as the parameters `dm` and `df`; `df v = some s`
models a successful parse re-formatted to `s`, `none` models the
`except: return value` branch. -/

def get_header_value (dm : String → String) (df : String → Option String)
    (header_data header_name : String) : String :=
  match ciFindSuffix (header_name.data ++ (": ").data) header_data.data with
  | none => ""
  | some rest =>
    let value := dm (String.mk (pyStrip (takeLine rest)))
    if lowerStr header_name == "date" then
      match df value with
      | some s => s
      | none => value
    else value

/-! ## Filter Evaluator (imapdelete.py lines 577-590)

`re.search(regex, value, re.IGNORECASE)` is an abstract engine
`rs : String → String → Except Unit Bool`; `.error ()` models `re.error`
raised for a malformed pattern.  `evalAnd` models
`all(re.search(regex, get_header_value(header_data, header), re.IGNORECASE)
for header, regex in and_headers)` including its short-circuiting;
`evalOr` models the corresponding `any(...)`. -/

def evalAnd (rs : String → String → Except Unit Bool) (hv : String → String) :
    List (String × String) → Except Unit Bool
  | [] => .ok true
  | (h, rgx) :: rest =>
    match rs rgx (hv h) with
    | .error e => .error e
    | .ok false => .ok false
    | .ok true => evalAnd rs hv rest

def evalOr (rs : String → String → Except Unit Bool) (hv : String → String) :
    List (String × String) → Except Unit Bool
  | [] => .ok false
  | (h, rgx) :: rest =>
    match rs rgx (hv h) with
    | .error e => .error e
    | .ok true => .ok true
    | .ok false => evalOr rs hv rest

/-- The per-message filter decision of `main` (lines 577-590): `and_match`
is computed first, then `or_match` (guarded by `if or_headers else True`),
then the subject regex is applied only when both held and a subject regex
was supplied.  Returns `.ok true` when the message is recorded as a match
(appended to `filtered_msgs`), `.ok false` when `non_matching` is
incremented, `.error ()` when a regex evaluation raised. -/
def filterMessage (rs : String → String → Except Unit Bool)
    (dm : String → String) (df : String → Option String)
    (andH orH : List (String × String)) (subjR : Option String)
    (header_data : String) : Except Unit Bool := do
  let hv := fun h => get_header_value dm df header_data h
  let a ← evalAnd rs hv andH
  let o ← if orH.isEmpty then pure true else evalOr rs hv orH
  let subject := hv "Subject"
  if a && o then
    match subjR with
    | none => pure true
    | some r => rs r subject
  else pure false

/-! ## Per-message processing loop (imapdelete.py lines 548-599)

The fetched data for one message is modelled by `FetchRes`:
`fetchFail` is `res != 'OK' or not msg_data or msg_data[0] is None`
(lines 551-564), `headerNone` is `header_data is None` (lines 567-569),
`decodeFail` is the `AttributeError` branch (lines 571-575), and
`ok hd` is a successfully decoded header block. -/

inductive FetchRes where
  | fetchFail
  | headerNone
  | decodeFail
  | ok (header_data : String)
deriving DecidableEq

inductive MsgOutcome where
  | matched (subject date : String)
  | nonMatching
  | skippedFetch
  | skippedHeaderNone
  | skippedDecode
  | skippedException
deriving DecidableEq

/-- Filter configuration: the regex engine, the two header-decoding
collaborators, and the operator-supplied predicates
(`and_headers`, `or_headers`, `args.regex`). -/
structure FilterCfg where
  rs : String → String → Except Unit Bool
  dm : String → String
  df : String → Option String
  andH : List (String × String)
  orH : List (String × String)
  subjR : Option String

/-- One iteration of the `for idx, msg_id in enumerate(msg_ids, 1)` loop of
`main` (lines 548-594): every failure branch executes `continue`; a regex
exception is caught by the `except Exception` handler at line 592 and also
executes `continue`. -/
def processMessage (fc : FilterCfg) : FetchRes → MsgOutcome
  | .fetchFail => .skippedFetch
  | .headerNone => .skippedHeaderNone
  | .decodeFail => .skippedDecode
  | .ok hd =>
    match filterMessage fc.rs fc.dm fc.df fc.andH fc.orH fc.subjR hd with
    | .error _ => .skippedException
    | .ok true =>
      .matched (get_header_value fc.dm fc.df hd "Subject")
        (get_header_value fc.dm fc.df hd "Date")
    | .ok false => .nonMatching

/-- Running totals of the search loop: `filtered_msgs` and `non_matching`. -/
structure LoopState where
  filtered : List (Nat × String × String)
  nonMatching : Nat
deriving DecidableEq

/-- State update for one message: a match is appended to `filtered_msgs`, a
non-match increments `non_matching`, every skipped message leaves both
unchanged (all the `continue` branches). -/
def loopStep (fc : FilterCfg) (st : LoopState) (m : Nat × FetchRes) : LoopState :=
  match processMessage fc m.2 with
  | .matched s d => { st with filtered := st.filtered ++ [(m.1, s, d)] }
  | .nonMatching => { st with nonMatching := st.nonMatching + 1 }
  | _ => st

/-- The whole search loop over the ids returned by `imap.search`. -/
def processLoop (fc : FilterCfg) (msgs : List (Nat × FetchRes)) : LoopState :=
  msgs.foldl (loopStep fc) ⟨[], 0⟩

/-! ## Folder Path Materializer: `create_imap_folder`
(imapdelete.py lines 123-179)

The IMAP session is modelled by the set of existing folder paths plus a
server acceptance predicate for `imap.create`.  The existence check
`res, folders = imap.list(directory=..., pattern='*')` followed by
`if res != 'OK' or not folders or folders == [None]` is modelled by
membership of the accumulated path in `folders`; `imap.create` succeeding
adds the path to the set. -/

structure ImapState where
  folders : List String
  createOk : String → Bool

/-- Model of `if current_path: current_path += '/'` followed by
`current_path += part`. -/
def buildPath (cur part : String) : String :=
  (if cur = "" then "" else cur ++ "/") ++ part

/-- The `for part in folder_parts` walk of `create_imap_folder`. -/
def cifGo : List String → String → ImapState → Bool × ImapState
  | [], _, st => (true, st)
  | p :: ps, cur, st =>
    let cur' := buildPath cur p
    if st.folders.contains cur' then cifGo ps cur' st
    else if st.createOk cur' then
      cifGo ps cur' ⟨cur' :: st.folders, st.createOk⟩
    else (false, st)

/-- Python `str.strip('"')`: drop every leading and trailing `"`. -/
def stripQuotesEnds (s : String) : String :=
  String.mk (((s.data.dropWhile (· == '"')).reverse.dropWhile (· == '"')).reverse)

/-- Model of `folder_name.split('/')` after `folder_name.strip('"')`. -/
def splitSlash (s : String) : List String :=
  (splitCL '/' s.data).map String.mk

/-- Model of `create_imap_folder(imap, folder_name, user)` — returns the success
flag and the session state after any folder creations. -/
def create_imap_folder (st : ImapState) (folder_name : String) :
    Bool × ImapState :=
  cifGo (splitSlash (stripQuotesEnds folder_name)) "" st

/-! ## Date-range parsing: `get_date_range` (imapdelete.py lines 441-449)

`datetime.strptime(s, '%d/%m/%Y')` accepts a 1-2 digit day in `1..31`, a
1-2 digit month in `1..12` and an exactly-4-digit year, consumes the whole
string, and then validates the calendar date (`datetime` range: year ≥ 1,
day within the month, Gregorian leap years).  A `ValueError` anywhere —
including a split that does not yield exactly two components — reaches the
`except ValueError` handler, which calls `sys.exit(1)`; that abort is
modelled by `none`. -/

structure PyDate where
  year : Nat
  month : Nat
  day : Nat
deriving DecidableEq, Repr

def isLeap (y : Nat) : Bool := y % 4 == 0 && (y % 100 != 0 || y % 400 == 0)

def daysInMonth (y m : Nat) : Nat :=
  if m == 2 then (if isLeap y then 29 else 28)
  else if m == 4 || m == 6 || m == 9 || m == 11 then 30
  else 31

def allDigits (cs : List Char) : Bool := cs.all (·.isDigit)

def digitsToNat (cs : List Char) : Nat :=
  cs.foldl (fun acc c => acc * 10 + (c.toNat - '0'.toNat)) 0

/-- A 1-2 digit numeric field of `strptime` with inclusive bounds. -/
def parseField2 (cs : List Char) (lo hi : Nat) : Option Nat :=
  if (cs.length == 1 || cs.length == 2) && allDigits cs then
    let v := digitsToNat cs
    if lo ≤ v && v ≤ hi then some v else none
  else none

/-- The `%Y` field: exactly four digits, then `datetime` demands year ≥ 1. -/
def parseField4 (cs : List Char) : Option Nat :=
  if cs.length == 4 && allDigits cs then
    let v := digitsToNat cs
    if 1 ≤ v then some v else none
  else none

/-- Model of `datetime.strptime(s, '%d/%m/%Y')`, with `none` for `ValueError`. -/
def parsePyDate (cs : List Char) : Option PyDate :=
  match splitCL '/' cs with
  | [d, m, y] =>
    match parseField2 d 1 31, parseField2 m 1 12, parseField4 y with
    | some dv, some mv, some yv =>
      if dv ≤ daysInMonth yv mv then some ⟨yv, mv, dv⟩ else none
    | _, _, _ => none
  | _ => none

/-- Model of `get_date_range(date_range_str)`: split on `'-'` (tuple unpacking
demands exactly two components), `strip()` each side, parse both dates.
`none` models the `sys.exit(1)` of the `except ValueError` handler.
No ordering comparison is performed anywhere in the function. -/
def get_date_range (s : String) : Option (PyDate × PyDate) :=
  match splitCL '-' s.data with
  | [a, b] =>
    match parsePyDate (pyStrip a), parsePyDate (pyStrip b) with
    | some d1, some d2 => some (d1, d2)
    | _, _ => none
  | _ => none

/-- Chronological comparison of two parsed dates (year, month, day). -/
def dateLe (a b : PyDate) : Bool :=
  a.year < b.year ||
    (a.year == b.year &&
      (a.month < b.month || (a.month == b.month && a.day ≤ b.day)))

/-! ## Archive path computation
(`archive_message_imap` lines 203-215, `archive_message_disk` lines 250-263)

`email.utils.parsedate_tz` is the abstract collaborator
`parsedate : String → Option (Int × Nat)` returning the year
(`date_tuple[0]`, an `int`) and month (`date_tuple[1]`); a missing `Date`
header makes `email_message['Date']` `None` and `parsedate_tz(None)`
returns `None`, which `Option.bind` captures. -/

/-- Model of `os.path.basename` for POSIX paths: everything after the last `/`. -/
def posixBasename (s : String) : String :=
  String.mk (((s.data.reverse.takeWhile (· != '/')).reverse))

/-- Model of the f-string month field `02d` format: decimal, left-padded with `0` to width 2. -/
def pad2 (m : Nat) : String := if m < 10 then "0" ++ toString m else toString m

/-- Tests whether the list begins with character `c`. -/
def headIs (c : Char) : List Char → Bool
  | [] => false
  | a :: _ => a == c

/-- Tests whether the list ends with character `c`. -/
def lastIs (c : Char) (l : List Char) : Bool := headIs c l.reverse

/-- Model of `os.path.join(a, b)` for POSIX paths, one component at a time. -/
def pjoin (a b : String) : String :=
  if headIs '/' b.data then b
  else if a = "" || lastIs '/' a.data then a ++ b
  else a ++ "/" ++ b

/-- The path computed by `archive_message_imap` (lines 205-215):
an f-string `f'{dest_folder}/{source_folder_name}/{year}/{month}'`. -/
def archiveImapPath (parsedate : String → Option (Int × Nat))
    (dest_folder source_folder : String) (dateHeader : Option String) : String :=
  let source_folder_name := posixBasename (stripQuotesEnds source_folder)
  match dateHeader.bind parsedate with
  | some (y, m) =>
    dest_folder ++ "/" ++ source_folder_name ++ "/" ++ toString y ++ "/" ++ pad2 m
  | none => dest_folder ++ "/" ++ source_folder_name

/-- The directory computed by `archive_message_disk` (lines 252-263):
`os.path.join(dest_folder, source_folder_name, year, month)`. -/
def archiveDiskPath (parsedate : String → Option (Int × Nat))
    (dest_folder source_folder : String) (dateHeader : Option String) : String :=
  let source_folder_name := posixBasename (stripQuotesEnds source_folder)
  match dateHeader.bind parsedate with
  | some (y, m) =>
    pjoin (pjoin (pjoin dest_folder source_folder_name) (toString y)) (pad2 m)
  | none => pjoin dest_folder source_folder_name

/-- Success value of `archive_message_imap` (lines 195-237): early `return
False` on a failed fetch, a failed `create_imap_folder`, or a failed
existence `list`; otherwise `res[0] == 'OK'` of the `append`. -/
def archive_message_imap_ok (fetchOk createFolderOk listOk appendOk : Bool) : Bool :=
  if !fetchOk then false
  else if !createFolderOk then false
  else if !listOk then false
  else appendOk

/-- Success value of `archive_message_disk` (lines 241-295): early `return
False` on a failed fetch; the file write returns `True`, or `False` from
the `except IOError` handler. -/
def archive_message_disk_ok (fetchOk writeOk : Bool) : Bool :=
  if !fetchOk then false else writeOk

/-! ## Disposition Engine: per-message step (imapdelete.py lines 622-658)

The two disposition loops of `main` share the same per-message shape.
External call outcomes are oracle booleans: `archiveOk` is the return value
of `archive_message_imap` / `archive_message_disk`, `copyTrashOk` is
`res[0] == 'OK'` of `imap.copy(msg_id, 'Trash')`. -/

structure DispArgs where
  archive : Option String
  archiveToDisk : Option String
  expunge : Bool

structure StepEffects where
  marked : Bool
  copyAttempted : Bool
  reportedNotTransferred : Bool
deriving DecidableEq

/-- One iteration of the disposition loops: lines 625-641 when an archive
destination is set (`if args.archive or args.archive_to_disk`), lines
649-655 otherwise.  `marked` records whether
`imap.store(msg_id, '+FLAGS', r'(\Deleted)')` was issued,
`copyAttempted` whether `imap.copy(msg_id, 'Trash')` was issued,
`reportedNotTransferred` whether the
`f"messaggio id {...} non trasferito."` line was printed. -/
def dispositionStep (a : DispArgs) (archiveOk copyTrashOk : Bool) : StepEffects :=
  if a.archive.isSome || a.archiveToDisk.isSome then
    if archiveOk then
      if a.archive.isSome then ⟨true, false, false⟩
      else if a.expunge then ⟨true, false, false⟩
      else if copyTrashOk then ⟨true, true, false⟩
      else ⟨false, true, false⟩
    else ⟨false, false, true⟩
  else
    if a.expunge then ⟨true, false, false⟩
    else if copyTrashOk then ⟨true, true, false⟩
    else ⟨false, true, false⟩

/-- The final `imap.expunge()` removes exactly the messages carrying the
`\Deleted` flag; an unmarked message survives the commit. -/
def expungeModel (mailbox : List (Nat × Bool)) : List (Nat × Bool) :=
  mailbox.filter (fun p => !p.2)

/-! ## Grouping & Selection: `show_grouped_subjects_and_select`
(imapdelete.py lines 310-353)

A subject group carries the subject, the message-id list and the date list;
`count` in the Python dict always equals `len(ids)`.  The prompt loop is
modelled over the stream of answers the user types; `input()` lower-cases
the answer at line 331. -/

abbrev SubjGroup := String × List Nat × List String

/-- One step of the `for msg_id, subject, date in filtered_msgs` aggregation
(insertion order preserved, as for a Python dict). -/
def addToGroups (acc : List SubjGroup) (m : Nat × String × String) : List SubjGroup :=
  match acc with
  | [] => [(m.2.1, [m.1], [m.2.2])]
  | g :: gs =>
    if g.1 == m.2.1 then (g.1, g.2.1 ++ [m.1], g.2.2 ++ [m.2.2]) :: gs
    else g :: addToGroups gs m

/-- Stable insert for descending count order (ties keep first-seen order),
matching `sorted(..., key=lambda x: x[1]['count'], reverse=True)`. -/
def insertDescCount (g : SubjGroup) : List SubjGroup → List SubjGroup
  | [] => [g]
  | h :: t =>
    if g.2.1.length ≥ h.2.1.length then g :: h :: t
    else h :: insertDescCount g t

def sortGroupsDesc : List SubjGroup → List SubjGroup
  | [] => []
  | g :: gs => insertDescCount g (sortGroupsDesc gs)

/-- Computes `subjects_list` of `show_grouped_subjects_and_select`. -/
def subjectsListOf (filtered : List (Nat × String × String)) : List SubjGroup :=
  sortGroupsDesc (filtered.foldl addToGroups [])

/-- Python `int(s)` on an already-stripped string (optional sign, digits). -/
def pyInt (cs : List Char) : Option Int :=
  match cs with
  | '-' :: ds => if ds ≠ [] && allDigits ds then some (-(digitsToNat ds : Int)) else none
  | '+' :: ds => if ds ≠ [] && allDigits ds then some (digitsToNat ds : Int) else none
  | ds => if ds ≠ [] && allDigits ds then some (digitsToNat ds : Int) else none

def allSome {α : Type} : List (Option α) → Option (List α)
  | [] => some []
  | none :: _ => none
  | some a :: rest => (allSome rest).map (a :: ·)

/-- One answer of the selection prompt (lines 331-345): `'n'` breaks with
the empty selection, `'a'` selects every group, otherwise the numbers are
parsed (`ValueError` → `none` → re-prompt) and validated against
`1 <= x <= len(subjects_list)` (out of range → `none` → re-prompt). -/
def parseSelection (n : Nat) (choice : String) : Option (List Int) :=
  if choice = "n" then some []
  else if choice = "a" then some ((List.range n).map (fun i => ((i : Int) + 1)))
  else
    let parts := ((splitCL ',' choice.data).map pyStrip).filter (· ≠ [])
    match allSome (parts.map pyInt) with
    | none => none
    | some xs =>
      if xs.all (fun x => 1 ≤ x && x ≤ (n : Int)) then some xs else none

/-- The `while True` prompt loop, fed by the stream of answers the user
will type; `none` models the stream running out (`input()` raising
`EOFError`, an uncaught crash). -/
def selectLoop (n : Nat) : List String → Option (List Int)
  | [] => none
  | c :: rest =>
    match parseSelection n (lowerStr c) with
    | some xs => some xs
    | none => selectLoop n rest

/-- The `messages_to_delete` accumulation (lines 347-350). -/
def selectedIds (groups : List SubjGroup) (sel : List Int) : List Nat :=
  (sel.map (fun i =>
    match groups.get? (i - 1).toNat with
    | some g => g.2.1
    | none => [])).flatten

/-! ## Control flow of `main` after the session is connected
(imapdelete.py lines 477-664)

Every interaction with the session library or the terminal is an oracle
input.  The result records the process exit status (`1` both for
`sys.exit(1)` and for an uncaught exception), whether `imap.logout()` was
executed before exiting, whether the exit was an uncaught exception
(`NameError` at line 616 when `messages_to_delete` is empty, `EOFError`
when the selection prompt runs out of input), and how many
`copy`/`store`/`expunge` protocol calls were issued. -/

structure MainCfg where
  listFlag : Bool
  folder : Option String
  datascope : Option String
  expunge : Bool
  archive : Option String
  archiveToDisk : Option String
  andH : List (String × String)
  orH : List (String × String)
  subjR : Option String

structure MainOracle where
  rs : String → String → Except Unit Bool
  dm : String → String
  df : String → Option String
  selectOk : Bool
  searchOk : Bool
  fetches : List (Nat × FetchRes)
  groupChoices : List String
  confirmAnswer : String
  msgArchiveOk : Nat → Bool
  msgCopyOk : Nat → Bool

structure MainResult where
  exitCode : Nat
  loggedOut : Bool
  crashed : Bool
  storeCalls : Nat
  copyCalls : Nat
  expungeCalls : Nat
deriving DecidableEq

/-- The disposition loop of `main`: per message, `dispositionStep`
determines the `store` and `copy` calls issued; the totals are returned. -/
def runDisposition (a : DispArgs) (aOk cOk : Nat → Bool) (msgs : List Nat) :
    Nat × Nat :=
  msgs.foldl
    (fun acc i =>
      let e := dispositionStep a (aOk i) (cOk i)
      (acc.1 + (if e.marked then 1 else 0),
       acc.2 + (if e.copyAttempted then 1 else 0)))
    (0, 0)

/-- The `args.datascope` handling of lines 520-521: `get_date_range`
aborting with `sys.exit(1)` when the supplied range string does not
parse. -/
def dateAborts (cfg : MainCfg) : Bool :=
  match cfg.datascope with
  | some ds => (get_date_range ds).isNone
  | none => false

/-- Model of `main` from line 479 (`if args.list`) to the end, with the session
already connected.  Mirrors, in source order: the `-l` exit (481-482, with
logout), the missing `-f` exit (484-486, `sys.exit(1)` with no logout), the
folder-select failure (499-516, logout then `sys.exit(1)`), the
`get_date_range` abort (441-449, `sys.exit(1)` inside the helper, no
logout), the search failure (536-539, logout), the message loop (548-599),
the zero-matches exit (607-610, logout), group selection (612), the
unbound-`action` `NameError` when the selection is empty (614-616, crash,
no logout), the declined confirmation (617-620, logout), the disposition
loops with final `expunge` (622-659) and the final logout (664). -/
def mainFlow (cfg : MainCfg) (orc : MainOracle) : MainResult :=
  if cfg.listFlag then ⟨0, true, false, 0, 0, 0⟩
  else if cfg.folder.isNone then ⟨1, false, false, 0, 0, 0⟩
  else if !orc.selectOk then ⟨1, true, false, 0, 0, 0⟩
  else if dateAborts cfg then ⟨1, false, false, 0, 0, 0⟩
  else if !orc.searchOk then ⟨1, true, false, 0, 0, 0⟩
  else
    let fc : FilterCfg := ⟨orc.rs, orc.dm, orc.df, cfg.andH, cfg.orH, cfg.subjR⟩
    let st := processLoop fc orc.fetches
    if st.filtered.length = 0 then ⟨0, true, false, 0, 0, 0⟩
    else
      let groups := subjectsListOf st.filtered
      match selectLoop groups.length orc.groupChoices with
      | none => ⟨1, false, true, 0, 0, 0⟩
      | some sel =>
        let msgs := selectedIds groups sel
        if msgs.isEmpty then ⟨1, false, true, 0, 0, 0⟩
        else if lowerStr orc.confirmAnswer ≠ "s" then ⟨0, true, false, 0, 0, 0⟩
        else
          let eff := runDisposition ⟨cfg.archive, cfg.archiveToDisk, cfg.expunge⟩
            orc.msgArchiveOk orc.msgCopyOk msgs
          ⟨0, true, false, eff.1, eff.2, 1⟩

/-! ## Theorems -/

/-- With a total (never-raising) regex engine, the AND evaluation computes
`List.all`. -/
theorem evalAnd_lift (rsb : String → String → Bool) (hv : String → String)
    (l : List (String × String)) :
    evalAnd (fun p s => Except.ok (rsb p s)) hv l =
      .ok (l.all (fun pr => rsb pr.2 (hv pr.1))) := by
  induction l with
  | nil => rfl
  | cons pr rest ih =>
    obtain ⟨h, r⟩ := pr
    simp only [evalAnd, List.all_cons]
    cases hb : rsb r (hv h) <;> simp [ih]

/-- With a total regex engine, the OR evaluation computes `List.any`. -/
theorem evalOr_lift (rsb : String → String → Bool) (hv : String → String)
    (l : List (String × String)) :
    evalOr (fun p s => Except.ok (rsb p s)) hv l =
      .ok (l.any (fun pr => rsb pr.2 (hv pr.1))) := by
  induction l with
  | nil => rfl
  | cons pr rest ih =>
    obtain ⟨h, r⟩ := pr
    simp only [evalOr, List.any_cons]
    cases hb : rsb r (hv h) <;> simp [ih]

/-- With a total regex engine the whole per-message decision is the boolean
combination computed at lines 577-587. -/
theorem filterMessage_lift (rsb : String → String → Bool) (dm : String → String)
    (df : String → Option String) (andH orH : List (String × String))
    (subjR : Option String) (hd : String) :
    filterMessage (fun p s => Except.ok (rsb p s)) dm df andH orH subjR hd =
      .ok (if (andH.all fun pr => rsb pr.2 (get_header_value dm df hd pr.1)) &&
              (if orH.isEmpty then true
               else orH.any fun pr => rsb pr.2 (get_header_value dm df hd pr.1))
           then
             (match subjR with
              | none => true
              | some r => rsb r (get_header_value dm df hd "Subject"))
           else false) := by
  simp only [filterMessage, evalAnd_lift, evalOr_lift]
  cases horH : orH.isEmpty <;>
    cases ha : (andH.all fun pr => rsb pr.2 (get_header_value dm df hd pr.1)) <;>
      cases ho : (orH.any fun pr => rsb pr.2 (get_header_value dm df hd pr.1)) <;>
        cases subjR <;>
          simp [Bind.bind, Except.bind, pure, Except.pure, horH, ha, ho]

/-- Claim C2: for every message whose headers were fetched and decoded, the
message is recorded as a match (decision `.ok true`, the branch appending to
`filtered_msgs` at line 588) if and only if every AND header predicate's
regex matches the extracted value of its named header (vacuously true for an
empty AND list), at least one OR predicate matches when the OR list is
non-empty (vacuously true when empty), and either no subject regex was
supplied or it matches the decoded Subject value; in particular with empty
AND and OR lists and no subject regex every such message matches. -/
theorem claim_C2_filter_iff (rsb : String → String → Bool) (dm : String → String)
    (df : String → Option String) (andH orH : List (String × String))
    (subjR : Option String) (hd : String) :
    (filterMessage (fun p s => Except.ok (rsb p s)) dm df andH orH subjR hd =
        .ok true ↔
      (∀ pr ∈ andH, rsb pr.2 (get_header_value dm df hd pr.1) = true) ∧
      (orH ≠ [] → ∃ pr ∈ orH, rsb pr.2 (get_header_value dm df hd pr.1) = true) ∧
      (subjR = none ∨
        ∃ r, subjR = some r ∧
          rsb r (get_header_value dm df hd "Subject") = true)) ∧
    filterMessage (fun p s => Except.ok (rsb p s)) dm df [] [] none hd =
      .ok true := by
  refine ⟨?_, by rw [filterMessage_lift]; rfl⟩
  rw [filterMessage_lift]
  cases orH with
  | nil =>
    cases subjR <;>
      simp [List.all_eq_true, List.any_eq_true]
  | cons g gs =>
    cases subjR <;>
      simp [List.all_eq_true, List.any_eq_true, and_assoc]

/-- Folders present in the session survive a `create_imap_folder` walk, and
the walk never changes the server's acceptance predicate. -/
theorem cifGo_preserves (ps : List String) (cur : String) (st : ImapState)
    (x : String) (hx : st.folders.contains x = true) :
    (cifGo ps cur st).2.folders.contains x = true := by
  induction ps generalizing cur st with
  | nil => exact hx
  | cons p ps ih =>
    simp only [cifGo]
    by_cases hc : st.folders.contains (buildPath cur p) = true
    · rw [if_pos hc]; exact ih _ _ hx
    · rw [if_neg hc]
      by_cases hk : st.createOk (buildPath cur p) = true
      · rw [if_pos hk]
        refine ih _ _ ?_
        have hx' : x ∈ st.folders := by simpa using hx
        simpa using List.mem_cons_of_mem (buildPath cur p) hx'
      · rw [if_neg hk]; exact hx

/-- A successful walk re-run from its own resulting state succeeds again
without changing the state: every accumulated prefix now passes the
existence check, so no creation is ever attempted. -/
theorem cifGo_idem (ps : List String) (cur : String) (st st2 : ImapState)
    (h : cifGo ps cur st = (true, st2)) : cifGo ps cur st2 = (true, st2) := by
  induction ps generalizing cur st with
  | nil => rfl
  | cons p ps ih =>
    simp only [cifGo] at h ⊢
    by_cases hc : st.folders.contains (buildPath cur p) = true
    · rw [if_pos hc] at h
      have hmem : st2.folders.contains (buildPath cur p) = true := by
        have := cifGo_preserves ps (buildPath cur p) st (buildPath cur p) hc
        rwa [h] at this
      rw [if_pos hmem]
      exact ih _ _ h
    · rw [if_neg hc] at h
      by_cases hk : st.createOk (buildPath cur p) = true
      · rw [if_pos hk] at h
        have hmem : st2.folders.contains (buildPath cur p) = true := by
          have := cifGo_preserves ps (buildPath cur p)
            ⟨buildPath cur p :: st.folders, st.createOk⟩ (buildPath cur p)
            (by simp)
          rwa [h] at this
        rw [if_pos hmem]
        exact ih _ _ h
      · rw [if_neg hk] at h
        injection h with h1 h2
        cases h1

/-- Claim C3: folder path materialization is idempotent — after a call to
`create_imap_folder` has succeeded for a path on a session, a second call
with the same path on the resulting session state also returns success and
leaves the state unchanged (every accumulated prefix passes the existence
check performed before any creation attempt, so no creation failure can
occur). -/
theorem claim_C3_materializer_idempotent (st : ImapState) (path : String)
    (h : (create_imap_folder st path).1 = true) :
    (create_imap_folder (create_imap_folder st path).2 path).1 = true ∧
      (create_imap_folder (create_imap_folder st path).2 path).2 =
        (create_imap_folder st path).2 := by
  unfold create_imap_folder at h ⊢
  cases hres : cifGo (splitSlash (stripQuotesEnds path)) "" st with
  | mk b st2 =>
    rw [hres] at h
    simp only at h
    subst h
    have h2 := cifGo_idem _ _ _ _ hres
    rw [h2]
    exact ⟨rfl, rfl⟩

/-- Witness for C3 at a concrete session and path. -/
theorem claim_C3_materializer_idempotent_witness :
    (create_imap_folder ⟨[], fun _ => true⟩ "Archive/INBOX/2024/03").1 = true ∧
      (create_imap_folder
        (create_imap_folder ⟨[], fun _ => true⟩ "Archive/INBOX/2024/03").2
        "Archive/INBOX/2024/03").1 = true :=
  ⟨rfl,
    (claim_C3_materializer_idempotent ⟨[], fun _ => true⟩
      "Archive/INBOX/2024/03" rfl).1⟩

/-- The `(.*)` capture of a line followed by further lines returns exactly the
first line. -/
theorem takeLine_append (l r : List Char) (hl : ∀ c ∈ l, (c != '\n') = true) :
    takeLine (l ++ '\n' :: r) = l := by
  induction l with
  | nil => rfl
  | cons c cs ih =>
    have hc : (c != '\n') = true := hl c (List.mem_cons_self c cs)
    simp only [List.cons_append, takeLine, List.takeWhile_cons, hc, if_true]
    exact congrArg (c :: ·)
      (ih (fun d hd => hl d (List.mem_cons_of_mem c hd)))

/-- Claim C10: `get_header_value` searches for `"<Name>: "` anywhere in the
raw header block, case-insensitively and without anchoring to a line start:
in a block whose first line is a `Resent-Date:` header, a request for
`Date` returns the `Resent-Date` line's value `x` (first occurrence wins),
for every possible value `y` of the actual `Date:` header line — the exact
header's value is never consulted. -/
theorem claim_C10_unanchored_header_match (dm : String → String)
    (df : String → Option String) (x y : String)
    (hx1 : ∀ c ∈ x.data, (c != '\n') = true)
    (hx2 : pyStrip x.data = x.data) :
    get_header_value dm df ("Resent-Date: " ++ x ++ "\nDate: " ++ y ++ "\n")
        "Date" =
      (match df (dm x) with | some s => s | none => dm x) := by
  have hfind : ciFindSuffix (("Date").data ++ (": ").data)
      (("Resent-Date: " ++ x ++ "\nDate: " ++ y ++ "\n").data) =
      some (((x.data ++ ("\nDate: ").data) ++ y.data) ++ ("\n").data) := rfl
  have hline : takeLine (((x.data ++ ("\nDate: ").data) ++ y.data) ++ ("\n").data)
      = x.data := by
    rw [List.append_assoc, List.append_assoc,
      show ("\nDate: ").data = '\n' :: ("Date: ").data from rfl,
      List.cons_append]
    exact takeLine_append x.data _ hx1
  simp only [get_header_value, hfind, hline, hx2]
  rw [show (lowerStr "Date" == "date") = true from rfl, if_pos rfl]

/-- Witness for C10: requesting `Date` on a block whose first line is a
`Resent-Date` header returns the `Resent-Date` value. -/
theorem claim_C10_unanchored_header_match_witness :
    get_header_value id (fun _ => none)
        ("Resent-Date: " ++ "AAA" ++ "\nDate: " ++ "BBB" ++ "\n") "Date" =
      "AAA" :=
  claim_C10_unanchored_header_match id (fun _ => none) "AAA" "BBB"
    (by decide) (by decide)

/-- Counterexample to claim C5 as stated: a message whose header fetch
fails is skipped, but it is not included in the non-matching running total
— after processing a single fetch-failed message the total reported to the
operator is `0`, not `1`. -/
theorem claim_C5_skip_not_counted_cex :
    ¬ ((processLoop
        ⟨fun _ _ => Except.ok true, id, fun _ => none, [], [], none⟩
        [(1, FetchRes.fetchFail)]).nonMatching = 1) := by decide

/-- Claim C5 (amended): a message whose header fetch fails, whose header
data is missing, or whose header cannot be decoded is skipped and the loop
continues with the remaining messages — the run is never aborted — but the
skipped message is not added to the non-matching total: the loop state is
left exactly as it was. -/
theorem claim_C5_skip_continues (fc : FilterCfg) (st : LoopState) (i : Nat)
    (rest : List (Nat × FetchRes)) :
    List.foldl (loopStep fc) st ((i, FetchRes.fetchFail) :: rest) =
      List.foldl (loopStep fc) st rest ∧
    List.foldl (loopStep fc) st ((i, FetchRes.headerNone) :: rest) =
      List.foldl (loopStep fc) st rest ∧
    List.foldl (loopStep fc) st ((i, FetchRes.decodeFail) :: rest) =
      List.foldl (loopStep fc) st rest ∧
    loopStep fc st (i, FetchRes.fetchFail) = st := by
  refine ⟨?_, ?_, ?_, rfl⟩ <;> rfl

/-- Counterexample to claim C4 as stated: a malformed AND-header regex
(engine raising on pattern `"("`) is not rejected at startup — the run
proceeds into the message loop, the exception surfaces during that
message's filter evaluation where the per-message handler catches it, and
the run then completes normally with exit status 0. -/
theorem claim_C4_regex_not_startup_cex :
    processMessage
        ⟨fun p _ => if p = "(" then Except.error () else Except.ok true,
         id, fun _ => none, [("From", "(")], [], none⟩
        (FetchRes.ok "From: a@b\n") = MsgOutcome.skippedException ∧
    mainFlow
        ⟨false, some "INBOX", none, false, none, none, [("From", "(")], [], none⟩
        ⟨fun p _ => if p = "(" then Except.error () else Except.ok true,
         id, fun _ => none, true, true, [(1, FetchRes.ok "From: a@b\n")],
         [], "", fun _ => false, fun _ => false⟩ =
      ⟨0, true, false, 0, 0, 0⟩ :=
  ⟨rfl, rfl⟩

/-- Claim C4 (amended): a malformed regex is not validated at startup
(`parse_args` stores the raw strings untouched); the pattern reaches
`re.search` during per-message filter evaluation, the raised error is
caught by the per-message `except Exception` handler, the message is
skipped, and the loop continues over the remaining messages unchanged. -/
theorem claim_C4_regex_error_caught_per_message (fc : FilterCfg) (hd : String)
    (i : Nat) (st : LoopState) (rest : List (Nat × FetchRes))
    (h : filterMessage fc.rs fc.dm fc.df fc.andH fc.orH fc.subjR hd =
      .error ()) :
    processMessage fc (FetchRes.ok hd) = MsgOutcome.skippedException ∧
    List.foldl (loopStep fc) st ((i, FetchRes.ok hd) :: rest) =
      List.foldl (loopStep fc) st rest := by
  have hp : processMessage fc (FetchRes.ok hd) = MsgOutcome.skippedException := by
    simp [processMessage, h]
  refine ⟨hp, ?_⟩
  simp [List.foldl_cons, loopStep, hp]

/-- Witness for the amended C4 at a concrete malformed pattern. -/
theorem claim_C4_regex_error_caught_per_message_witness :
    processMessage
        ⟨fun p _ => if p = "(" then Except.error () else Except.ok true,
         id, fun _ => none, [("Subject", "(")], [], none⟩
        (FetchRes.ok "Subject: hi\n") = MsgOutcome.skippedException ∧
    List.foldl
        (loopStep ⟨fun p _ => if p = "(" then Except.error () else Except.ok true,
          id, fun _ => none, [("Subject", "(")], [], none⟩)
        ⟨[], 0⟩ [(1, FetchRes.ok "Subject: hi\n")] =
      List.foldl
        (loopStep ⟨fun p _ => if p = "(" then Except.error () else Except.ok true,
          id, fun _ => none, [("Subject", "(")], [], none⟩)
        ⟨[], 0⟩ [] :=
  claim_C4_regex_error_caught_per_message
    ⟨fun p _ => if p = "(" then Except.error () else Except.ok true,
     id, fun _ => none, [("Subject", "(")], [], none⟩
    "Subject: hi\n" 1 ⟨[], 0⟩ [] rfl

/-- Counterexample to claim C1 as stated: in a pure trash-move disposition
(no archive destination, no `-e`), a message whose copy to `Trash` failed
is indeed never marked for deletion, but it is NOT reported as "not
transferred" — the `non trasferito` line exists only in the archive branch,
so the failure is silent. -/
theorem claim_C1_failed_trashmove_silent_cex :
    (dispositionStep ⟨none, none, false⟩ false false).marked = false ∧
    (dispositionStep ⟨none, none, false⟩ false false).reportedNotTransferred
      = false := by
  decide

/-- Claim C1 (amended): a message is marked for deletion only if its
corresponding action reported success — for trash-move (both the pure
branch and the archive-local sub-step) only if the copy to `Trash` returned
OK, for archive-remote only if `archive_message_imap` succeeded (which
requires the append to have returned OK), for archive-local only if
`archive_message_disk` succeeded (which requires the file write to have
succeeded); a message whose ARCHIVE action failed is reported as "not
transferred" and never marked, while a failed pure trash-move copy leaves
the message unmarked but unreported; the final expunge never removes an
unmarked message. -/
theorem claim_C1_marked_only_on_success (a : DispArgs)
    (archiveOk copyTrashOk fetchOk createFolderOk listOk appendOk writeOk : Bool)
    (mailbox : List (Nat × Bool)) (i : Nat) :
    ((dispositionStep a archiveOk copyTrashOk).marked = true →
      a.archive = none → a.archiveToDisk = none → a.expunge = false →
      copyTrashOk = true) ∧
    ((dispositionStep a archiveOk copyTrashOk).marked = true →
      a.archive.isSome = true → archiveOk = true) ∧
    ((dispositionStep a archiveOk copyTrashOk).marked = true →
      a.archive = none → a.archiveToDisk.isSome = true → archiveOk = true) ∧
    ((dispositionStep a archiveOk copyTrashOk).marked = true →
      a.archive = none → a.archiveToDisk.isSome = true → a.expunge = false →
      copyTrashOk = true) ∧
    (archive_message_imap_ok fetchOk createFolderOk listOk appendOk = true →
      appendOk = true) ∧
    (archive_message_disk_ok fetchOk writeOk = true → writeOk = true) ∧
    ((a.archive.isSome || a.archiveToDisk.isSome) = true → archiveOk = false →
      (dispositionStep a archiveOk copyTrashOk).reportedNotTransferred = true ∧
        (dispositionStep a archiveOk copyTrashOk).marked = false) ∧
    ((i, false) ∈ mailbox → (i, false) ∈ expungeModel mailbox) := by
  obtain ⟨oa, od, e⟩ := a
  refine ⟨?_, ?_, ?_, ?_, ?_, ?_, ?_, ?_⟩
  · intro hm h1 h2 h3
    subst h1; subst h2; subst h3
    revert hm
    cases archiveOk <;> cases copyTrashOk <;> decide
  · intro hm hs
    cases oa with
    | none => simp at hs
    | some s =>
      revert hm
      cases archiveOk <;> cases od <;> cases e <;> cases copyTrashOk <;>
        simp [dispositionStep]
  · intro hm h1 hs
    subst h1
    cases od with
    | none => simp at hs
    | some s =>
      revert hm
      cases archiveOk <;> cases e <;> cases copyTrashOk <;>
        simp [dispositionStep]
  · intro hm h1 hs h3
    subst h1; subst h3
    cases od with
    | none => simp at hs
    | some s =>
      revert hm
      cases archiveOk <;> cases copyTrashOk <;> simp [dispositionStep]
  · cases fetchOk <;> cases createFolderOk <;> cases listOk <;>
      cases appendOk <;> decide
  · cases fetchOk <;> cases writeOk <;> decide
  · intro hor hao
    subst hao
    cases oa <;> cases od <;> simp [dispositionStep] <;> simp at hor
  · intro hmem
    simp [expungeModel, List.mem_filter, hmem]

/-- Witness for the amended C1: a successful pure trash-move marks the
message, and the marking hypothesis chain is satisfiable. -/
theorem claim_C1_marked_only_on_success_witness :
    (dispositionStep ⟨none, none, false⟩ true true).marked = true ∧
      true = true :=
  ⟨by decide,
    (claim_C1_marked_only_on_success ⟨none, none, false⟩ true true true true
      true true true [] 0).1 (by decide) rfl rfl rfl⟩

/-- Counterexample to claim C8 as stated: both components of
`"31/12/2023-01/01/2023"` parse as valid `dd/mm/yyyy` dates and the start
date is after the end date, yet `get_date_range` returns the reversed
window instead of failing. -/
theorem claim_C8_reversed_window_accepted_cex :
    get_date_range "31/12/2023-01/01/2023" =
      some (⟨2023, 12, 31⟩, ⟨2023, 1, 1⟩) ∧
    dateLe ⟨2023, 12, 31⟩ ⟨2023, 1, 1⟩ = false := by decide

/-- Claim C8 (amended): `get_date_range` validates only the two-component
shape of the range string and each component's `dd/mm/yyyy` parse; it
contains no ordering comparison, so construction succeeds for ANY pair of
individually valid dates — including a start date after the end date. -/
theorem claim_C8_no_ordering_check (s : String) (d1 d2 : PyDate) :
    get_date_range s = some (d1, d2) ↔
      ∃ a b, splitCL '-' s.data = [a, b] ∧
        parsePyDate (pyStrip a) = some d1 ∧
        parsePyDate (pyStrip b) = some d2 := by
  cases h : splitCL '-' s.data with
  | nil => simp [get_date_range, h]
  | cons a t =>
    cases t with
    | nil => simp [get_date_range, h]
    | cons b t2 =>
      cases t2 with
      | nil =>
        cases h1 : parsePyDate (pyStrip a) <;>
          cases h2 : parsePyDate (pyStrip b) <;>
            simp [get_date_range, h, h1, h2] <;>
              aesop
      | cons c t3 => simp [get_date_range, h]

theorem strDataAppend (a b : String) : (a ++ b).data = a.data ++ b.data := rfl

theorem headIs_append (c : Char) (l r : List Char) (hl : l ≠ []) :
    headIs c (l ++ r) = headIs c l := by
  cases l with
  | nil => exact absurd rfl hl
  | cons d t => rfl

theorem lastIs_append (c : Char) (l r : List Char) (hr : r ≠ []) :
    lastIs c (l ++ r) = lastIs c r := by
  unfold lastIs
  rw [List.reverse_append]
  exact headIs_append _ _ _ (by simpa)

/-- Joining `os.path.join(a, b)` is plain `a + "/" + b` when `b` is relative and
`a` is nonempty without a trailing slash. -/
theorem pjoin_eq (a b : String) (hb : headIs '/' b.data = false)
    (ha : a ≠ "") (ha2 : lastIs '/' a.data = false) :
    pjoin a b = a ++ "/" ++ b := by
  unfold pjoin
  rw [if_neg (by simp [hb]), if_neg (by simp [ha, ha2])]

theorem appendSlash_ne_empty (a b : String) : a ++ "/" ++ b ≠ "" := by
  intro h
  have h2 := congrArg String.data h
  rw [strDataAppend, strDataAppend] at h2
  simp at h2

theorem appendSlash_lastIs (a b : String) (hb : b ≠ "")
    (hb2 : lastIs '/' b.data = false) :
    lastIs '/' ((a ++ "/" ++ b).data) = false := by
  rw [strDataAppend, lastIs_append _ _ _ (by
    intro h
    exact hb (congrArg String.mk h))]
  exact hb2

/-- Claim C9: for every archived message the computed archive path is
`{destinationRoot}/{basename of the source folder}/{year}/{month}` (year
from the Date header, zero-padded two-digit month) when the Date header
parses, and exactly `{destinationRoot}/{basename of the source folder}`
when the Date header is absent or does not parse — for both the remote
(`archive_message_imap`) and local (`archive_message_disk`) variants; the
side conditions only rule out degenerate inputs (empty components,
leading/trailing path separators). -/
theorem claim_C9_archive_path_shape (parsedate : String → Option (Int × Nat))
    (dest src : String) (dh : Option String) (y : Int) (m : Nat)
    (hdest : dest ≠ "") (hdest2 : lastIs '/' dest.data = false)
    (hname : posixBasename (stripQuotesEnds src) ≠ "")
    (hname1 : headIs '/' (posixBasename (stripQuotesEnds src)).data = false)
    (hname2 : lastIs '/' (posixBasename (stripQuotesEnds src)).data = false)
    (hy2 : headIs '/' (toString y).data = false)
    (hy3 : lastIs '/' (toString y).data = false)
    (hym : toString y ≠ "")
    (hm2 : headIs '/' (pad2 m).data = false) :
    (dh.bind parsedate = some (y, m) →
      archiveImapPath parsedate dest src dh =
        dest ++ "/" ++ posixBasename (stripQuotesEnds src) ++ "/" ++
          toString y ++ "/" ++ pad2 m ∧
      archiveDiskPath parsedate dest src dh =
        dest ++ "/" ++ posixBasename (stripQuotesEnds src) ++ "/" ++
          toString y ++ "/" ++ pad2 m) ∧
    (dh.bind parsedate = none →
      archiveImapPath parsedate dest src dh =
        dest ++ "/" ++ posixBasename (stripQuotesEnds src) ∧
      archiveDiskPath parsedate dest src dh =
        dest ++ "/" ++ posixBasename (stripQuotesEnds src)) := by
  have h1 : pjoin dest (posixBasename (stripQuotesEnds src)) =
      dest ++ "/" ++ posixBasename (stripQuotesEnds src) :=
    pjoin_eq _ _ hname1 hdest hdest2
  have h2 : pjoin (dest ++ "/" ++ posixBasename (stripQuotesEnds src))
      (toString y) =
      dest ++ "/" ++ posixBasename (stripQuotesEnds src) ++ "/" ++ toString y :=
    pjoin_eq _ _ hy2 (appendSlash_ne_empty _ _)
      (appendSlash_lastIs _ _ hname hname2)
  have h3 : pjoin
      (dest ++ "/" ++ posixBasename (stripQuotesEnds src) ++ "/" ++ toString y)
      (pad2 m) =
      dest ++ "/" ++ posixBasename (stripQuotesEnds src) ++ "/" ++
        toString y ++ "/" ++ pad2 m :=
    pjoin_eq _ _ hm2 (appendSlash_ne_empty _ _)
      (appendSlash_lastIs _ _ hym hy3)
  constructor
  · intro hsome
    unfold archiveImapPath archiveDiskPath
    rw [hsome]
    dsimp only
    exact ⟨rfl, by rw [h1, h2, h3]⟩
  · intro hnone
    unfold archiveImapPath archiveDiskPath
    rw [hnone]
    dsimp only
    exact ⟨rfl, by rw [h1]⟩

/-- Witness for C9, instantiating Scenario E of the spec: destination root
`/archive`, source folder `INBOX`, Date header parsing to March 2024. -/
theorem claim_C9_archive_path_shape_witness :
    archiveImapPath (fun _ => some ((2024 : Int), 3)) "/archive" "INBOX"
        (some "Fri, 01 Mar 2024 10:00:00 +0000") = "/archive/INBOX/2024/03" ∧
    archiveDiskPath (fun _ => some ((2024 : Int), 3)) "/archive" "INBOX"
        (some "Fri, 01 Mar 2024 10:00:00 +0000") = "/archive/INBOX/2024/03" := by
  have h := (claim_C9_archive_path_shape (fun _ => some ((2024 : Int), 3))
    "/archive" "INBOX" (some "Fri, 01 Mar 2024 10:00:00 +0000") 2024 3
    (by decide) (by decide) (by decide) (by decide) (by decide)
    (by decide) (by decide) (by decide) (by decide)).1 rfl
  exact ⟨by rw [h.1]; rfl, by rw [h.2]; rfl⟩

/-- Claim C6 (code bug): answering `'n'` at the group-selection prompt
does resolve to the empty selection, but the run then crashes instead of
terminating normally — with `messages_to_delete` empty the `if
messages_to_delete:` guard at line 614 skips the assignment of `action`,
and line 616 reads the unbound variable inside the confirmation prompt's
f-string, raising `NameError`: the process exits with status 1 (not 0) and
without logging out, although — as the claim also says — no copy, store, or
expunge was issued. -/
theorem claim_C6_answer_none_crashes :
    parseSelection 1 "n" = some [] ∧
    selectLoop 1 ["n"] = some [] ∧
    mainFlow ⟨false, some "INBOX", none, false, none, none, [], [], none⟩
        ⟨fun _ _ => Except.ok true, id, fun _ => none, true, true,
         [(1, FetchRes.ok "Subject: hi\nDate: today\n")], ["n"], "s",
         fun _ => true, fun _ => true⟩ =
      ⟨1, false, true, 0, 0, 0⟩ :=
  ⟨rfl, rfl, rfl⟩

/-- Counterexample to claim C7 as stated: two exit paths taken after the
session is connected skip the logout — the missing `-f` configuration
error (lines 484-486) and the malformed date-range abort inside
`get_date_range` (line 449); both call `sys.exit(1)` directly. -/
theorem claim_C7_config_errors_skip_logout_cex :
    (mainFlow ⟨false, none, none, false, none, none, [], [], none⟩
        ⟨fun _ _ => Except.ok true, id, fun _ => none, true, true, [], [], "",
         fun _ => true, fun _ => true⟩).loggedOut = false ∧
    (mainFlow ⟨false, none, none, false, none, none, [], [], none⟩
        ⟨fun _ _ => Except.ok true, id, fun _ => none, true, true, [], [], "",
         fun _ => true, fun _ => true⟩).exitCode = 1 ∧
    (mainFlow ⟨false, some "INBOX", some "garbage", false, none, none, [], [], none⟩
        ⟨fun _ _ => Except.ok true, id, fun _ => none, true, true, [], [], "",
         fun _ => true, fun _ => true⟩).loggedOut = false ∧
    (mainFlow ⟨false, some "INBOX", some "garbage", false, none, none, [], [], none⟩
        ⟨fun _ _ => Except.ok true, id, fun _ => none, true, true, [], [], "",
         fun _ => true, fun _ => true⟩).exitCode = 1 :=
  ⟨rfl, rfl, rfl, rfl⟩

/-- Claim C7 (amended): after the session is connected, logout is invoked
on the `-l` list exit, on a folder-select failure, on a search failure, on
the nothing-matched exit, on a declined confirmation, and on normal
completion of a disposition run; it is NOT invoked on the
missing-folder-argument or malformed-date-range configuration errors (see
the counterexample), which exit directly. -/
theorem claim_C7_logout_on_exit_paths (cfg : MainCfg) (orc : MainOracle) :
    (cfg.listFlag = true → (mainFlow cfg orc).loggedOut = true) ∧
    (cfg.listFlag = false → cfg.folder.isNone = false → orc.selectOk = false →
      (mainFlow cfg orc).loggedOut = true) ∧
    (cfg.listFlag = false → cfg.folder.isNone = false → orc.selectOk = true →
      dateAborts cfg = false → orc.searchOk = false →
      (mainFlow cfg orc).loggedOut = true) ∧
    (cfg.listFlag = false → cfg.folder.isNone = false → orc.selectOk = true →
      dateAborts cfg = false → orc.searchOk = true →
      (processLoop ⟨orc.rs, orc.dm, orc.df, cfg.andH, cfg.orH, cfg.subjR⟩
        orc.fetches).filtered.length = 0 →
      (mainFlow cfg orc).loggedOut = true ∧ (mainFlow cfg orc).exitCode = 0) ∧
    (∀ sel,
      cfg.listFlag = false → cfg.folder.isNone = false → orc.selectOk = true →
      dateAborts cfg = false → orc.searchOk = true →
      ¬ ((processLoop ⟨orc.rs, orc.dm, orc.df, cfg.andH, cfg.orH, cfg.subjR⟩
          orc.fetches).filtered.length = 0) →
      selectLoop (subjectsListOf
          (processLoop ⟨orc.rs, orc.dm, orc.df, cfg.andH, cfg.orH, cfg.subjR⟩
            orc.fetches).filtered).length orc.groupChoices = some sel →
      (selectedIds (subjectsListOf
          (processLoop ⟨orc.rs, orc.dm, orc.df, cfg.andH, cfg.orH, cfg.subjR⟩
            orc.fetches).filtered) sel).isEmpty = false →
      (mainFlow cfg orc).loggedOut = true ∧ (mainFlow cfg orc).exitCode = 0) := by
  refine ⟨?_, ?_, ?_, ?_, ?_⟩
  · intro h1
    simp [mainFlow, h1]
  · intro h1 h2 h3
    simp [mainFlow, h1, h2, h3]
  · intro h1 h2 h3 h4 h5
    simp [mainFlow, h1, h2, h3, h4, h5]
  · intro h1 h2 h3 h4 h5 h6
    constructor <;> simp [mainFlow, h1, h2, h3, h4, h5, h6]
  · intro sel h1 h2 h3 h4 h5 h6 h7 h8
    by_cases h9 : lowerStr orc.confirmAnswer = "s"
    · constructor <;>
        simp [mainFlow, h1, h2, h3, h4, h5, h6, h7, h8, h9]
    · constructor <;>
        simp [mainFlow, h1, h2, h3, h4, h5, h6, h7, h8, h9]

/-- Witness for the amended C7: the list exit logs out. -/
theorem claim_C7_logout_on_exit_paths_witness :
    (mainFlow ⟨true, none, none, false, none, none, [], [], none⟩
        ⟨fun _ _ => Except.ok true, id, fun _ => none, true, true, [], [], "",
         fun _ => true, fun _ => true⟩).loggedOut = true :=
  (claim_C7_logout_on_exit_paths
    ⟨true, none, none, false, none, none, [], [], none⟩
    ⟨fun _ _ => Except.ok true, id, fun _ => none, true, true, [], [], "",
     fun _ => true, fun _ => true⟩).1 rfl

end ImapDelete
